import Mathlib

/-!
Verification of `zhinst.toolkit.driver.devices.base.BaseInstrument`
(`src/zhinst/toolkit/driver/devices/base.py`).

The Python code is shallowly embedded: pure helpers become Lean functions
over `String` / `List Char` / `Nat`, machine ints are `Nat` (version
components are non-negative), raising code returns an inductive outcome
type whose constructors mirror the distinct `raise` / `warnings.warn`
sites, and mutable instance attributes become fields of an explicit state
record threaded through the operations.
-/

namespace ZhinstToolkit

/-! ### Python string primitives used by the source -/

/-- Python `str.lower()` restricted to ASCII, which is exact for the node
paths and version strings handled by the source. -/
def pyLower (s : String) : String :=
  String.mk (s.data.map Char.toLower)

/-- Python `str.upper()` restricted to ASCII. -/
def pyUpper (s : String) : String :=
  String.mk (s.data.map Char.toUpper)

/-- Python `str.split(".")` on the character list: splitting an empty
string yields one empty part, exactly as in Python. -/
def splitDot : List Char → List (List Char)
  | [] => [[]]
  | c :: cs =>
    if c = '.' then [] :: splitDot cs
    else
      match splitDot cs with
      | r :: rs => (c :: r) :: rs
      | [] => [[c]]

/-- Python `str.isdigit()` for ASCII strings: non-empty and all decimal
digits. -/
def pyIsdigit (s : List Char) : Bool :=
  !s.isEmpty && s.all Char.isDigit

/-- Decimal value of a digit string, as computed by Python `int(v)` on a
string of ASCII digits. -/
def digitsToNat (s : List Char) : Nat :=
  s.foldl (fun a c => 10 * a + (c.toNat - 48)) 0

/-- The per-part conversion `int(v) if v.isdigit() else 0` from
`_version_string_to_tuple`. -/
def pyIntOr0 (s : List Char) : Nat :=
  if pyIsdigit s then digitsToNat s else 0

/-- Python lexicographic comparison `<` of tuples of non-negative ints:
a strict prefix is smaller than the longer tuple. -/
def pyTupleLt : List Nat → List Nat → Bool
  | [], [] => false
  | [], _ :: _ => true
  | _ :: _, [] => false
  | x :: xs, y :: ys => x < y || (x = y && pyTupleLt xs ys)

/-- Python substring test `needle in hay` on character lists. -/
def listContainsSub (needle : List Char) : List Char → Bool
  | [] => needle.isEmpty
  | c :: t => needle.isPrefixOf (c :: t) || listContainsSub needle t

/-- Python `needle in hay` for strings. -/
def strContains (hay needle : String) : Bool :=
  listContainsSub needle.data hay.data

/-! ### `BaseInstrument._version_string_to_tuple` (base.py lines 116-133)

Python returns a tuple whose length varies with the number of dotted
parts; it is embedded as a `List Nat`. -/

/-- `_version_string_to_tuple`: split on dots, insert a `"0"` patch part
at index 2 when there are exactly three parts, keep at most four parts,
convert each with `int(v) if v.isdigit() else 0`. -/
def _version_string_to_tuple (version : String) : List Nat :=
  let parts := splitDot version.data
  let parts :=
    if parts.length = 3 then parts.take 2 ++ [['0']] ++ parts.drop 2
    else parts
  (parts.take 4).map pyIntOr0

/-! ### `BaseInstrument._check_python_versions` (base.py lines 135-178)

The function compares `zi_python_version[:2]` and `zi_utils_version[:2]`
against the tuples of the minimum-version strings and raises
`ToolkitError` at two distinct sites. The outcome is embedded as an
inductive: `coreTooOld` and `utilsTooOld` are the two `raise` sites,
`ok` is a normal return. The constants `_MIN_LABONE_VERSION` and
`_MIN_DEVICE_UTILS_VERSION` live in `zhinst.toolkit._min_version`, which
is outside the embedded sources, so the check is parameterised by the two
minimum-version strings. -/

/-- Version tuples as annotated in the source: `tuple[int, int, int, int]`. -/
def V4 : Type := Nat × Nat × Nat × Nat

/-- Outcomes of `_check_python_versions`: the two `ToolkitError` raise
sites and the normal return. -/
inductive PythonVersionCheck where
  | ok
  | coreTooOld
  | utilsTooOld
  deriving DecidableEq, Repr

/-- `_check_python_versions`, parameterised by the minimum-version
strings read from `zhinst.toolkit._min_version`. -/
def _check_python_versions (minLabone minUtils : String)
    (zi_python_version zi_utils_version : V4) : PythonVersionCheck :=
  if pyTupleLt [zi_python_version.1, zi_python_version.2.1]
      (_version_string_to_tuple minLabone) then
    .coreTooOld
  else if pyTupleLt [zi_utils_version.1, zi_utils_version.2.1]
      (_version_string_to_tuple minUtils) then
    .utilsTooOld
  else
    .ok

/-- The spec-level "major.minor strictly below" order on version pairs. -/
def majorMinorLt (x y a b : Nat) : Prop :=
  x < a ∨ (x = a ∧ y < b)

instance (x y a b : Nat) : Decidable (majorMinorLt x y a b) := by
  unfold majorMinorLt; infer_instance

/-! ### `BaseInstrument._check_labone_version` (base.py lines 180-220) -/

/-- Outcomes of `_check_labone_version`: the two distinct `ToolkitError`
raise sites, the `warnings.warn(RuntimeWarning)` site on a patch
mismatch, and the silent normal return. -/
inductive LaboneCheck where
  | ok
  | warnPatch
  | errorServerOlder
  | errorLocalOlder
  deriving DecidableEq, Repr

/-- Which outcomes of `_check_labone_version` correspond to a raised
`ToolkitError` (a warning is not a raise). -/
def LaboneCheck.raises : LaboneCheck → Bool
  | .errorServerOlder => true
  | .errorLocalOlder => true
  | _ => false

/-- `_check_labone_version`: compares `labone_version[:2]` against
`zi_python_version[:2]` (raising in either direction of inequality) and
then warns when the third components differ. -/
def _check_labone_version (zi_python_version labone_version : V4) :
    LaboneCheck :=
  if pyTupleLt [labone_version.1, labone_version.2.1]
      [zi_python_version.1, zi_python_version.2.1] then
    .errorServerOlder
  else if pyTupleLt [zi_python_version.1, zi_python_version.2.1]
      [labone_version.1, labone_version.2.1] then
    .errorLocalOlder
  else if labone_version.2.2.1 ≠ zi_python_version.2.2.1 then
    .warnPatch
  else
    .ok

/-! ### `BaseInstrument._check_firmware_update_status` (base.py 222-258)

The method reads the device's `STATUSFLAGS` word from the data server and
branches on its bits; the embedding takes the status word directly. -/

/-- Outcomes of `_check_firmware_update_status`: `updating` is the
`ConnectionError` raise (bit 8), `updateFirmware` and `updateLabone` are
the two `ToolkitError` raises (bits 4/5 and 6/7). -/
inductive FirmwareCheck where
  | ok
  | updating
  | updateFirmware
  | updateLabone
  deriving DecidableEq, Repr

/-- Which outcomes of `_check_firmware_update_status` are a
`ToolkitError` (the `ConnectionError` for an update in progress is a
distinct class). -/
def FirmwareCheck.isToolkitError : FirmwareCheck → Bool
  | .updateFirmware => true
  | .updateLabone => true
  | _ => false

/-- `_check_firmware_update_status` on the `STATUSFLAGS` word: bit 8
first (device updating, `ConnectionError`), then bits 4/5 (update the
firmware), then bits 6/7 (update LabOne). -/
def _check_firmware_update_status (status_flag : Nat) : FirmwareCheck :=
  if status_flag &&& (1 <<< 8) ≠ 0 then
    .updating
  else if status_flag &&& (1 <<< 4) ≠ 0 ∨ status_flag &&& (1 <<< 5) ≠ 0 then
    .updateFirmware
  else if status_flag &&& (1 <<< 6) ≠ 0 ∨ status_flag &&& (1 <<< 7) ≠ 0 then
    .updateLabone
  else
    .ok

/-! ### `BaseInstrument._load_preloaded_json` (base.py lines 309-343)

The reconciliation loop canonicalises each listed node path with two
regex substitutions, looks the canonical path up in the (serial
substituted) static schema document, and either registers the entry under
the lowercase concrete path with its `Node` field overwritten by the
upper-cased concrete path, or logs a warning for non-`/zi/` paths. JSON
objects are embedded as association lists of string fields. -/

/-- A JSON object of the schema document: field name to string value. -/
abbrev JObj : Type := List (String × String)

/-- Python `str.startswith(pre)` as a prefix test on the character
lists. -/
def pyStartsWith (s pre : String) : Bool :=
  pre.data.isPrefixOf s.data

/-- First-match association-list lookup (Python `dict.get`). -/
def alistGet {β : Type} (m : List (String × β)) (k : String) : Option β :=
  match m with
  | [] => none
  | (k', v) :: rest => if k' = k then some v else alistGet rest k

/-- Python `dict[k] = v`: the key maps to `v` afterwards, all other keys
keep their bindings. -/
def alistSet {β : Type} (m : List (String × β)) (k : String) (v : β) :
    List (String × β) :=
  (k, v) :: m.filter (fun p => p.1 ≠ k)

/-- `re.sub(r"(?<!values)\/[0-9]*?$", "/n", s)`: anchored at the end,
this replaces the leftmost `/` that is followed only by digits and is
not preceded by `values`, together with those digits, by `/n`.
`rpre` holds the consumed prefix in reverse. -/
def subTrailingNumGo (rpre : List Char) : List Char → List Char
  | [] => rpre.reverse
  | c :: cs =>
    if c = '/' ∧ cs.all Char.isDigit ∧
        ¬ List.isPrefixOf ['s', 'e', 'u', 'l', 'a', 'v'] rpre then
      rpre.reverse ++ ['/', 'n']
    else subTrailingNumGo (c :: rpre) cs

/-- First regex substitution of `_load_preloaded_json`. -/
def subTrailingNum (s : List Char) : List Char :=
  subTrailingNumGo [] s

/-- Helper for the lazy pattern `\/[0-9]*?\/`: from the characters after
an opening `/`, consume digits up to the first `/`; `some rest` is the
input after that closing `/`. -/
def takeDigitsThenSlash : List Char → Option (List Char)
  | [] => none
  | c :: cs =>
    if c = '/' then some cs
    else if c.isDigit then takeDigitsThenSlash cs
    else none

/-- `re.sub(r"\/[0-9]*?\/", "/n/", s)`: scanning left to right, each
non-overlapping match of `/`, lazily few digits, `/` is replaced by
`/n/`; scanning resumes after the consumed closing slash. Each step
consumes at least one character, so running with fuel equal to the input
length is exact; the fuel only makes the recursion structural. -/
def subInnerNumGo : Nat → List Char → List Char → List Char
  | _, rpre, [] => rpre.reverse
  | 0, rpre, rest => rpre.reverse ++ rest
  | fuel + 1, rpre, c :: cs =>
    if c = '/' then
      match takeDigitsThenSlash cs with
      | some rest => subInnerNumGo fuel ('/' :: 'n' :: '/' :: rpre) rest
      | none => subInnerNumGo fuel (c :: rpre) cs
    else subInnerNumGo fuel (c :: rpre) cs

/-- Second regex substitution of `_load_preloaded_json`. -/
def subInnerNum (s : List Char) : List Char :=
  subInnerNumGo s.length [] s

/-- The canonical (wildcarded) key computed for one listed node:
`node_name = re.sub(r"\/[0-9]*?\/", "/n/", re.sub(r"(?<!values)\/[0-9]*?$", "/n", node.lower()))`. -/
def nodeCanonicalKey (node : String) : String :=
  String.mk (subInnerNum (subTrailingNum (pyLower node).data))

/-- One iteration of the `for node in existing_nodes` loop: `acc` is the
pair (schema mapping built so far, nodes warned about so far). The
Python `if json_element:` test is dict truthiness: a found but empty
object is falsy. -/
def loadPreloadedStep (json_raw : List (String × JObj))
    (acc : List (String × JObj) × List String) (node : String) :
    List (String × JObj) × List String :=
  let found :=
    match alistGet json_raw (nodeCanonicalKey node) with
    | some obj => if obj.isEmpty then none else some obj
    | none => none
  match found with
  | some obj =>
    (alistSet acc.1 (pyLower node) (alistSet obj "Node" (pyUpper node)),
     acc.2)
  | none =>
    if ¬ pyStartsWith node "/zi/" then (acc.1, acc.2 ++ [node])
    else acc

/-- The reconciliation loop of `_load_preloaded_json`, given the static
schema document after `devxxxx`/`DEVXXXX` serial substitution and the
node list returned by `listNodes`. The first component is the
`preloaded_json` mapping returned by the method, the second collects the
nodes for which `logger.warning("unkown node ...")` was emitted. -/
def _load_preloaded_json (json_raw : List (String × JObj))
    (existing_nodes : List String) :
    List (String × JObj) × List String :=
  existing_nodes.foldl (loadPreloadedStep json_raw) ([], [])

/-! ### Instrument state (base.py lines 47-83, 296-307, 367-401)

The attributes `__init__` assigns, plus the storage slot of the
`cached_property` `device_options`, become a record; the session object
is an opaque type parameter. The methods of the class assign no other
instance attribute. -/

/-- The node-tree iteration `for node, info in self` yields a node and
its schema entry; `get_streamingnodes` reads `info.get("Properties")`,
a comma-separated string in the node schema. -/
structure StreamInfo where
  Properties : String
  deriving DecidableEq, Repr

/-- The scan of `get_streamingnodes`: collect every node of the tree
 whose `Properties` string contains `"Stream"` (Python `in` on strings
is substring containment). -/
def streamingScan (tree : List (String × StreamInfo)) : List String :=
  (tree.filter (fun p => strContains p.2.Properties "Stream")).map
    (fun p => p.1)

/-- `get_streamingnodes` acting on the `_streaming_nodes` cache slot:
on `none` the tree is scanned and the result stored, otherwise the
cached list is returned untouched. Returns (result, new cache). -/
def get_streamingnodes (tree : List (String × StreamInfo))
    (cache : Option (List String)) :
    List String × Option (List String) :=
  match cache with
  | some l => (l, some l)
  | none => (streamingScan tree, some (streamingScan tree))

/-- The mutable attributes of a `BaseInstrument`; `σ` is the opaque
session type. `device_options_cache` is the storage of the
`cached_property`. -/
structure BaseInstrument (σ : Type) where
  _serial : String
  _device_type : String
  _session : σ
  _options : String
  _streaming_nodes : Option (List String)
  device_options_cache : Option String

/-- `BaseInstrument.__init__`: `getStringResult` is the outcome of
`session.daq_server.getString(f"/{serial}/features/options")`, where
`Except.error` is the `RuntimeError` caught by the `try`/`except`
(falling back to the empty string). Construction always succeeds. -/
def BaseInstrument.init {σ : Type} (serial device_type : String)
    (session : σ) (getStringResult : Except Unit String) :
    BaseInstrument σ :=
  { _serial := serial
    _device_type := device_type
    _session := session
    _options :=
      match getStringResult with
      | .ok s => s
      | .error _ => ""
    _streaming_nodes := none
    device_options_cache := none }

/-- The `device_options` cached property: `fetch` is the value the body
`self.features.options()` would produce; it is consulted only when the
cache slot is empty. Returns (value, new state). -/
def BaseInstrument.device_options {σ : Type} (s : BaseInstrument σ)
    (fetch : String) : String × BaseInstrument σ :=
  match s.device_options_cache with
  | some v => (v, s)
  | none => (fetch, { s with device_options_cache := some fetch })

/-- The read-only property `serial` (base.py lines 367-374). -/
def BaseInstrument.serial {σ : Type} (s : BaseInstrument σ) : String :=
  s._serial

/-- The read-only property `session` (base.py lines 376-383). -/
def BaseInstrument.session {σ : Type} (s : BaseInstrument σ) : σ :=
  s._session

/-- The read-only property `device_type` (base.py lines 385-392). -/
def BaseInstrument.device_type {σ : Type} (s : BaseInstrument σ) :
    String :=
  s._device_type

/-- The facade operations named by the spec, with the external data each
one consumes (tree listing, fetched option string). -/
inductive FacadeOp where
  | check_compatibility
  | factory_reset
  | get_streamingnodes (tree : List (String × StreamInfo))
  | set_transaction
  | device_options (fetch : String)

/-- Effect of one facade operation on the instrument state.
`check_compatibility`, `factory_reset` and `set_transaction` assign no
instance attribute in the source; `get_streamingnodes` and
`device_options` only touch their cache slots. -/
def applyOp {σ : Type} (s : BaseInstrument σ) : FacadeOp → BaseInstrument σ
  | .get_streamingnodes tree =>
    { s with _streaming_nodes :=
        (ZhinstToolkit.get_streamingnodes tree s._streaming_nodes).2 }
  | .device_options fetch => (s.device_options fetch).2
  | _ => s

/-! ### Helper lemmas -/

theorem pyTupleLt_pair (x y a b : Nat) :
    pyTupleLt [x, y] [a, b] = decide (majorMinorLt x y a b) := by
  by_cases h1 : x < a <;> by_cases h2 : x = a <;> by_cases h3 : y < b <;>
    simp_all [pyTupleLt, majorMinorLt]

theorem and_one_shiftLeft_ne_zero (n i : Nat) :
    (n &&& (1 <<< i) ≠ 0) ↔ n.testBit i = true := by
  rw [Nat.shiftLeft_eq, one_mul, Nat.and_two_pow]
  have h2 : (2 : Nat) ^ i ≠ 0 := by positivity
  cases h : n.testBit i <;> simp [h, h2]

/-! ### Claims -/

/-- C3: `_version_string_to_tuple` inserts a zero patch component into a
three-part version string, `"24.10.64896" ↦ (24, 10, 0, 64896)`, and maps
a four-part string component-wise, `"25.04.1.17" ↦ (25, 4, 1, 17)`. -/
theorem C3_version_string_to_tuple_examples :
    _version_string_to_tuple "24.10.64896" = [24, 10, 0, 64896] ∧
    _version_string_to_tuple "25.04.1.17" = [25, 4, 1, 17] := by
  decide

/-- C1: with the minimum required versions given as major.minor values
(the `_min_version` constants are outside the embedded sources),
`_check_python_versions` raises a `ToolkitError` exactly when the local
zhinst.core or zhinst.utils major.minor is strictly below its minimum; in
particular it does not raise when each local major.minor is greater than
or equal to (e.g. exactly equal to) the minimum. -/
theorem C1_check_python_versions_iff (minLabone minUtils : String)
    (a b c d : Nat) (zi zu : V4)
    (hL : _version_string_to_tuple minLabone = [a, b])
    (hU : _version_string_to_tuple minUtils = [c, d]) :
    _check_python_versions minLabone minUtils zi zu ≠ .ok ↔
      (majorMinorLt zi.1 zi.2.1 a b ∨ majorMinorLt zu.1 zu.2.1 c d) := by
  unfold _check_python_versions
  rw [hL, hU, pyTupleLt_pair, pyTupleLt_pair]
  by_cases h1 : majorMinorLt zi.1 zi.2.1 a b <;>
    by_cases h2 : majorMinorLt zu.1 zu.2.1 c d <;>
    simp [h1, h2]

/-- C1 witness: with minima `"24.04"` and `"0.6"`, a local stack at
exactly the minima passes, and one below the zhinst.core minimum
raises. -/
theorem C1_check_python_versions_iff_witness :
    _check_python_versions "24.04" "0.6" (24, 4, 0, 1) (0, 6, 1, 2) =
        .ok ∧
      _check_python_versions "24.04" "0.6" (23, 10, 0, 1) (0, 6, 1, 2) ≠
        .ok :=
  ⟨by
    have h := C1_check_python_versions_iff "24.04" "0.6" 24 4 0 6
      (24, 4, 0, 1) (0, 6, 1, 2) (by decide) (by decide)
    by_contra hne
    exact absurd (h.mp hne) (by decide),
   (C1_check_python_versions_iff "24.04" "0.6" 24 4 0 6
      (23, 10, 0, 1) (0, 6, 1, 2) (by decide) (by decide)).mpr
    (Or.inl (Or.inl (by decide)))⟩

/-- C2: `_check_labone_version` raises a `ToolkitError` with a distinct
message when the server (LabOne) major.minor is below the local
(zhinst.core) major.minor and when it is above it, and when the
major.minor parts agree but the third (patch) components differ it only
emits a `RuntimeWarning` and does not raise. -/
theorem C2_check_labone_version (zi lo : V4) :
    (majorMinorLt lo.1 lo.2.1 zi.1 zi.2.1 →
      _check_labone_version zi lo = .errorServerOlder) ∧
    (majorMinorLt zi.1 zi.2.1 lo.1 lo.2.1 →
      _check_labone_version zi lo = .errorLocalOlder) ∧
    (lo.1 = zi.1 → lo.2.1 = zi.2.1 → lo.2.2.1 ≠ zi.2.2.1 →
      _check_labone_version zi lo = .warnPatch ∧
        (_check_labone_version zi lo).raises = false) ∧
    (LaboneCheck.errorServerOlder ≠ LaboneCheck.errorLocalOlder ∧
      LaboneCheck.errorServerOlder.raises = true ∧
      LaboneCheck.errorLocalOlder.raises = true ∧
      LaboneCheck.warnPatch.raises = false) := by
  refine ⟨?_, ?_, ?_, by decide⟩
  · intro h
    have hlt : pyTupleLt [lo.1, lo.2.1] [zi.1, zi.2.1] = true := by
      rw [pyTupleLt_pair]; exact decide_eq_true h
    simp [_check_labone_version, hlt]
  · intro h
    have hgt : pyTupleLt [zi.1, zi.2.1] [lo.1, lo.2.1] = true := by
      rw [pyTupleLt_pair]; exact decide_eq_true h
    have hnlt : pyTupleLt [lo.1, lo.2.1] [zi.1, zi.2.1] = false := by
      rw [pyTupleLt_pair, decide_eq_false_iff_not]
      unfold majorMinorLt at h ⊢
      omega
    simp [_check_labone_version, hgt, hnlt]
  · intro h1 h2 h3
    have hnlt : pyTupleLt [lo.1, lo.2.1] [zi.1, zi.2.1] = false := by
      rw [pyTupleLt_pair, decide_eq_false_iff_not]
      unfold majorMinorLt
      omega
    have hngt : pyTupleLt [zi.1, zi.2.1] [lo.1, lo.2.1] = false := by
      rw [pyTupleLt_pair, decide_eq_false_iff_not]
      unfold majorMinorLt
      omega
    simp [_check_labone_version, hnlt, hngt, h3, LaboneCheck.raises]

/-- C2 witness: concrete version tuples exercising the three branches:
server 24.4 older than local 25.1, local 24.4 older than server 25.1,
and equal 25.1 with patch 0 versus 2. -/
theorem C2_check_labone_version_witness :
    _check_labone_version (25, 1, 0, 9) (24, 4, 0, 9) =
        .errorServerOlder ∧
      _check_labone_version (24, 4, 0, 9) (25, 1, 0, 9) =
        .errorLocalOlder ∧
      _check_labone_version (25, 1, 0, 9) (25, 1, 2, 9) = .warnPatch :=
  ⟨(C2_check_labone_version (25, 1, 0, 9) (24, 4, 0, 9)).1
      (Or.inl (by decide)),
   (C2_check_labone_version (24, 4, 0, 9) (25, 1, 0, 9)).2.1
      (Or.inl (by decide)),
   ((C2_check_labone_version (25, 1, 0, 9) (25, 1, 2, 9)).2.2.1
      rfl rfl (by decide)).1⟩

/-- C6: if bit 8 of the device status word is set then
`_check_firmware_update_status` reports the device as updating
(`ConnectionError`), and this takes precedence over the mismatch checks:
bits 4-7 produce a `ToolkitError` only when bit 8 is clear. -/
theorem C6_check_firmware_update_status (status_flag : Nat) :
    (status_flag.testBit 8 = true →
      _check_firmware_update_status status_flag = .updating) ∧
    ((status_flag.testBit 4 = true ∨ status_flag.testBit 5 = true ∨
        status_flag.testBit 6 = true ∨ status_flag.testBit 7 = true) →
      status_flag.testBit 8 = false →
      (_check_firmware_update_status status_flag).isToolkitError =
        true) ∧
    ((_check_firmware_update_status status_flag).isToolkitError = true →
      status_flag.testBit 8 = false) := by
  refine ⟨?_, ?_, ?_⟩
  · intro h8
    have h256 : status_flag &&& (1 <<< 8) ≠ 0 :=
      (and_one_shiftLeft_ne_zero status_flag 8).mpr h8
    unfold _check_firmware_update_status
    rw [if_pos h256]
  · intro h47 h8
    have hn8 : ¬ status_flag &&& (1 <<< 8) ≠ 0 := by
      rw [and_one_shiftLeft_ne_zero, h8]; exact fun h => by cases h
    rcases h47 with h | h | h | h <;>
      have hbit := (and_one_shiftLeft_ne_zero status_flag _).mpr h <;>
      by_cases h4 : status_flag &&& (1 <<< 4) ≠ 0 <;>
      by_cases h5 : status_flag &&& (1 <<< 5) ≠ 0 <;>
      by_cases h6 : status_flag &&& (1 <<< 6) ≠ 0 <;>
      simp_all [_check_firmware_update_status, FirmwareCheck.isToolkitError]
  · intro htk
    by_contra h8
    rw [Bool.not_eq_false] at h8
    have h256 : status_flag &&& (1 <<< 8) ≠ 0 :=
      (and_one_shiftLeft_ne_zero status_flag 8).mpr h8
    have hup : _check_firmware_update_status status_flag = .updating := by
      unfold _check_firmware_update_status
      rw [if_pos h256]
    rw [hup] at htk
    exact absurd htk (by decide)

/-- C6 witness: the status word 272 = bits 8 and 4 reports updating (the
mismatch bit is dominated), and 16 = bit 4 alone is a `ToolkitError`. -/
theorem C6_check_firmware_update_status_witness :
    _check_firmware_update_status 272 = .updating ∧
      (_check_firmware_update_status 16).isToolkitError = true :=
  ⟨(C6_check_firmware_update_status 272).1 (by decide),
   (C6_check_firmware_update_status 16).2.1 (Or.inl (by decide))
      (by decide)⟩

/-- C10: for a version string with three or more dot-separated parts,
`_version_string_to_tuple` yields exactly four integers, taking the
parts component-wise (parts past the fourth discarded, a part that is
not all digits becoming 0, e.g. `"25.04.dev1.17" ↦ (25, 4, 0, 17)`);
with fewer than three parts the result keeps the input's length and so
has fewer than four components. -/
theorem C10_version_string_to_tuple_shape (s : String) :
    (4 ≤ (splitDot s.data).length →
      _version_string_to_tuple s =
        ((splitDot s.data).take 4).map pyIntOr0) ∧
    (3 ≤ (splitDot s.data).length →
      (_version_string_to_tuple s).length = 4) ∧
    ((splitDot s.data).length < 3 →
      (_version_string_to_tuple s).length = (splitDot s.data).length ∧
        (_version_string_to_tuple s).length < 4) ∧
    _version_string_to_tuple "25.04.dev1.17" = [25, 4, 0, 17] := by
  refine ⟨?_, ?_, ?_, by decide⟩
  · intro h4
    simp only [_version_string_to_tuple]
    rw [if_neg (by omega)]
  · intro h3
    simp only [_version_string_to_tuple]
    by_cases h : (splitDot s.data).length = 3
    · rw [if_pos h]
      simp [List.length_map, List.length_take, List.length_append,
        List.length_drop, h]
    · rw [if_neg h]
      simp only [List.length_map, List.length_take]
      omega
  · intro hlt
    simp only [_version_string_to_tuple]
    rw [if_neg (by omega)]
    simp only [List.length_map, List.length_take]
    omega

/-- C10 witness: a five-part string keeps its first four parts and a
two-part string keeps its length. -/
theorem C10_version_string_to_tuple_shape_witness :
    _version_string_to_tuple "1.2.3.4.5" =
        ((splitDot "1.2.3.4.5".data).take 4).map pyIntOr0 ∧
      (_version_string_to_tuple "1.2").length =
        (splitDot "1.2".data).length :=
  ⟨(C10_version_string_to_tuple_shape "1.2.3.4.5").1 (by decide),
   ((C10_version_string_to_tuple_shape "1.2").2.2.1 (by decide)).1⟩

/-- C7: the first call of `get_streamingnodes` scans the tree and
returns exactly the nodes whose `Properties` contain `"Stream"`; every
further call returns the identical cached list and leaves the cache
unchanged, independently of the tree (no re-scan). -/
theorem C7_get_streamingnodes_cached
    (tree tree2 : List (String × StreamInfo)) :
    (get_streamingnodes tree none).1 =
        (tree.filter
            (fun p => strContains p.2.Properties "Stream")).map
          (fun p => p.1) ∧
      get_streamingnodes tree2 (get_streamingnodes tree none).2 =
        get_streamingnodes tree none := by
  exact ⟨rfl, rfl⟩

/-- C8: the construction-time fetch of the options string falls back to
`""` on a `RuntimeError` (construction completes), and `device_options`
fetches at most once: an empty cache is filled with the fetched value and
a filled cache is returned as-is, the result no longer depending on the
fetch. -/
theorem C8_device_options_cached (σ : Type)
    (serial device_type : String) (session : σ)
    (fetch fetch2 : String) (s : BaseInstrument σ) :
    (BaseInstrument.init serial device_type session
        (Except.error ()))._options = "" ∧
    (s.device_options_cache = none →
      s.device_options fetch =
        (fetch, { s with device_options_cache := some fetch })) ∧
    (∀ v, s.device_options_cache = some v →
      s.device_options fetch = (v, s) ∧
        (s.device_options fetch).1 = (s.device_options fetch2).1) := by
  refine ⟨rfl, ?_, ?_⟩
  · intro hc
    simp [BaseInstrument.device_options, hc]
  · intro v hc
    simp [BaseInstrument.device_options, hc]

/-- C8 witness: a failing construction-time fetch yields the empty
options string, and on a fresh instance `device_options` returns the
fetched value while caching it. -/
theorem C8_device_options_cached_witness :
    (BaseInstrument.init "dev1234" "MFLI" (0 : Nat)
        (Except.error ()))._options = "" ∧
      (BaseInstrument.init "dev1234" "MFLI" (0 : Nat)
          (Except.ok "MD")).device_options "FFT" =
        ("FFT",
          { BaseInstrument.init "dev1234" "MFLI" (0 : Nat)
              (Except.ok "MD") with
            device_options_cache := some "FFT" }) :=
  ⟨(C8_device_options_cached Nat "dev1234" "MFLI" 0 "FFT" "X"
      (BaseInstrument.init "dev1234" "MFLI" 0 (Except.error ()))).1,
   (C8_device_options_cached Nat "dev1234" "MFLI" 0 "FFT" "X"
      (BaseInstrument.init "dev1234" "MFLI" 0 (Except.ok "MD"))).2.1
    rfl⟩

theorem applyOp_fields {σ : Type} (s : BaseInstrument σ) (op : FacadeOp) :
    (applyOp s op)._serial = s._serial ∧
      (applyOp s op)._device_type = s._device_type ∧
      (applyOp s op)._session = s._session := by
  cases op with
  | device_options fetch =>
    cases hc : s.device_options_cache <;>
      simp [applyOp, BaseInstrument.device_options, hc]
  | get_streamingnodes tree => exact ⟨rfl, rfl, rfl⟩
  | check_compatibility => exact ⟨rfl, rfl, rfl⟩
  | factory_reset => exact ⟨rfl, rfl, rfl⟩
  | set_transaction => exact ⟨rfl, rfl, rfl⟩

theorem foldl_applyOp_fields {σ : Type} (ops : List FacadeOp)
    (s : BaseInstrument σ) :
    (ops.foldl applyOp s)._serial = s._serial ∧
      (ops.foldl applyOp s)._device_type = s._device_type ∧
      (ops.foldl applyOp s)._session = s._session := by
  induction ops generalizing s with
  | nil => exact ⟨rfl, rfl, rfl⟩
  | cons op ops ih =>
    simp only [List.foldl_cons]
    obtain ⟨h1, h2, h3⟩ := ih (applyOp s op)
    obtain ⟨g1, g2, g3⟩ := applyOp_fields s op
    exact ⟨h1.trans g1, h2.trans g2, h3.trans g3⟩

/-- C9: `serial`, `device_type` and `session` equal the constructor
arguments and stay equal to them after any sequence of facade
operations (compatibility check, factory reset, streaming-node scan,
transaction, options access). -/
theorem C9_identity_immutable (σ : Type) (serial device_type : String)
    (session : σ) (getStringResult : Except Unit String)
    (ops : List FacadeOp) :
    (ops.foldl applyOp
        (BaseInstrument.init serial device_type session
          getStringResult)).serial = serial ∧
      (ops.foldl applyOp
          (BaseInstrument.init serial device_type session
            getStringResult)).device_type = device_type ∧
      (ops.foldl applyOp
          (BaseInstrument.init serial device_type session
            getStringResult)).session = session := by
  obtain ⟨h1, h2, h3⟩ := foldl_applyOp_fields ops
    (BaseInstrument.init serial device_type session getStringResult)
  exact ⟨h1, h2, h3⟩

/-! ### Schema reconciliation lemmas -/

theorem alistGet_cons {β : Type} (p : String × β)
    (rest : List (String × β)) (k : String) :
    alistGet (p :: rest) k =
      if p.1 = k then some p.2 else alistGet rest k := rfl

theorem alistGet_filter_ne {β : Type} (m : List (String × β))
    (k k' : String) (h : k' ≠ k) :
    alistGet (m.filter (fun p => p.1 ≠ k)) k' = alistGet m k' := by
  induction m with
  | nil => rfl
  | cons p rest ih =>
    rw [List.filter_cons]
    by_cases hp : p.1 = k
    · rw [if_neg (by simp [hp]), ih, alistGet_cons,
        if_neg (by rw [hp]; exact fun hh => h hh.symm)]
    · rw [if_pos (by simp [hp]), alistGet_cons, alistGet_cons, ih]

theorem alistGet_alistSet {β : Type} (m : List (String × β))
    (k k' : String) (v : β) :
    alistGet (alistSet m k v) k' =
      if k = k' then some v else alistGet m k' := by
  by_cases h : k = k'
  · simp [alistSet, alistGet, h]
  · simp only [alistSet, alistGet]
    rw [if_neg h, if_neg h]
    exact alistGet_filter_ne m k k' (fun hh => h hh.symm)

theorem loadPreloadedStep_key_mono (json_raw : List (String × JObj))
    (acc : List (String × JObj) × List String) (n k : String)
    (h : ∃ o, alistGet acc.1 k = some o) :
    ∃ o, alistGet (loadPreloadedStep json_raw acc n).1 k = some o := by
  obtain ⟨o, ho⟩ := h
  unfold loadPreloadedStep
  cases hf : alistGet json_raw (nodeCanonicalKey n) with
  | none =>
    by_cases hz : pyStartsWith n "/zi/" = true <;> simp [hz] <;>
      exact ⟨o, ho⟩
  | some obj =>
    by_cases he : obj.isEmpty
    · simp only [hf, he]
      by_cases hz : pyStartsWith n "/zi/" = true <;> simp [hz] <;>
        exact ⟨o, ho⟩
    · simp only [hf, he]
      simp only [Bool.false_eq_true, if_false]
      rw [alistGet_alistSet]
      by_cases hk : pyLower n = k
      · exact ⟨_, by rw [if_pos hk]⟩
      · exact ⟨o, by rw [if_neg hk]; exact ho⟩

theorem loadPreloadedStep_warn_mono (json_raw : List (String × JObj))
    (acc : List (String × JObj) × List String) (n w : String)
    (h : w ∈ acc.2) :
    w ∈ (loadPreloadedStep json_raw acc n).2 := by
  unfold loadPreloadedStep
  cases hf : alistGet json_raw (nodeCanonicalKey n) with
  | none =>
    by_cases hz : pyStartsWith n "/zi/" = true <;>
      simp [hz, List.mem_append] <;>
      first
      | exact h
      | exact Or.inl h
  | some obj =>
    by_cases he : obj.isEmpty
    · simp only [hf, he]
      by_cases hz : pyStartsWith n "/zi/" = true <;>
        simp [hz, List.mem_append] <;>
        first
        | exact h
        | exact Or.inl h
    · simp only [hf, he]
      simpa using h

theorem foldl_loadPreloadedStep_mono (json_raw : List (String × JObj))
    (nodes : List String)
    (acc : List (String × JObj) × List String) (k w : String) :
    ((∃ o, alistGet acc.1 k = some o) →
      ∃ o, alistGet
        (nodes.foldl (loadPreloadedStep json_raw) acc).1 k = some o) ∧
    (w ∈ acc.2 →
      w ∈ (nodes.foldl (loadPreloadedStep json_raw) acc).2) := by
  induction nodes generalizing acc with
  | nil => exact ⟨fun h => h, fun h => h⟩
  | cons n ns ih =>
    simp only [List.foldl_cons]
    refine ⟨fun h => ?_, fun h => ?_⟩
    · exact (ih (loadPreloadedStep json_raw acc n)).1
        (loadPreloadedStep_key_mono json_raw acc n k h)
    · exact (ih (loadPreloadedStep json_raw acc n)).2
        (loadPreloadedStep_warn_mono json_raw acc n w h)

theorem loadPreloadedStep_covers (json_raw : List (String × JObj))
    (acc : List (String × JObj) × List String) (node : String) :
    (∃ o, alistGet (loadPreloadedStep json_raw acc node).1
        (pyLower node) = some o) ∨
      node ∈ (loadPreloadedStep json_raw acc node).2 ∨
      pyStartsWith node "/zi/" = true := by
  unfold loadPreloadedStep
  cases hf : alistGet json_raw (nodeCanonicalKey node) with
  | none =>
    by_cases hz : pyStartsWith node "/zi/" = true
    · exact Or.inr (Or.inr hz)
    · simp [hz]
  | some obj =>
    by_cases he : obj.isEmpty
    · simp only [hf, he]
      by_cases hz : pyStartsWith node "/zi/" = true
      · exact Or.inr (Or.inr hz)
      · simp [hz]
    · simp only [hf, he]
      simp only [Bool.false_eq_true, if_false]
      exact Or.inl ⟨_, by rw [alistGet_alistSet, if_pos rfl]⟩

theorem foldl_loadPreloadedStep_covers (json_raw : List (String × JObj))
    (nodes : List String) :
    ∀ (acc : List (String × JObj) × List String) (node : String),
      node ∈ nodes →
      (∃ o, alistGet
          (nodes.foldl (loadPreloadedStep json_raw) acc).1
          (pyLower node) = some o) ∨
        node ∈ (nodes.foldl (loadPreloadedStep json_raw) acc).2 ∨
        pyStartsWith node "/zi/" = true := by
  induction nodes with
  | nil => intro acc node h; cases h
  | cons n ns ih =>
    intro acc node h
    simp only [List.foldl_cons]
    rcases List.mem_cons.mp h with rfl | hmem
    · rcases loadPreloadedStep_covers json_raw acc node with h1 | h2 | h3
      · exact Or.inl ((foldl_loadPreloadedStep_mono json_raw ns
          (loadPreloadedStep json_raw acc node) (pyLower node) node).1 h1)
      · exact Or.inr (Or.inl ((foldl_loadPreloadedStep_mono json_raw ns
          (loadPreloadedStep json_raw acc node) (pyLower node) node).2 h2))
      · exact Or.inr (Or.inr h3)
    · exact ih (loadPreloadedStep json_raw acc n) node hmem

/-- C4 counterexample: the listing reports the single node
`/zi/about/version` and the static schema is empty; the node is neither
registered in the produced mapping nor logged — it is silently
dropped. -/
theorem C4_counterexample :
    alistGet (_load_preloaded_json [] ["/zi/about/version"]).1
        (pyLower "/zi/about/version") = none ∧
      "/zi/about/version" ∉
        (_load_preloaded_json [] ["/zi/about/version"]).2 := by
  decide

/-- C4 (amended): every concrete node path returned by the listing call
is registered under its lowercase form, or a warning is logged for it,
or it lies in the internal `/zi/` namespace (such paths, when absent
from the static schema, are skipped without a warning). -/
theorem C4_no_silent_loss_amended (json_raw : List (String × JObj))
    (existing_nodes : List String) (node : String)
    (hmem : node ∈ existing_nodes) :
    (∃ o, alistGet (_load_preloaded_json json_raw existing_nodes).1
        (pyLower node) = some o) ∨
      node ∈ (_load_preloaded_json json_raw existing_nodes).2 ∨
      pyStartsWith node "/zi/" = true :=
  foldl_loadPreloadedStep_covers json_raw existing_nodes ([], []) node
    hmem

/-- C4 witness: a device node absent from an empty static schema is
logged as unknown. -/
theorem C4_no_silent_loss_amended_witness :
    (∃ o, alistGet
        (_load_preloaded_json [] ["/dev99/demods/0/rate"]).1
        (pyLower "/dev99/demods/0/rate") = some o) ∨
      "/dev99/demods/0/rate" ∈
        (_load_preloaded_json [] ["/dev99/demods/0/rate"]).2 ∨
      pyStartsWith "/dev99/demods/0/rate" "/zi/" = true :=
  C4_no_silent_loss_amended [] ["/dev99/demods/0/rate"]
    "/dev99/demods/0/rate" (by decide)

/-- C5: with a static schema (after serial substitution for `dev1234`)
holding the wildcarded key for `demods/n/rate`, and the listing
reporting `/dev1234/demods/3/rate`, the produced mapping registers the
lowercase concrete path with its `Node` field overwritten by the
upper-cased concrete path `/DEV1234/DEMODS/3/RATE`. -/
theorem C5_preloaded_node_field :
    (alistGet
        (_load_preloaded_json
          [("/dev1234/demods/n/rate",
            [("Node", "/DEV1234/DEMODS/N/RATE"),
              ("Description", "Demodulator sampling rate"),
              ("Properties", "Read, Write, Setting")])]
          ["/dev1234/demods/3/rate"]).1
        "/dev1234/demods/3/rate").bind
      (fun obj => alistGet obj "Node") =
    some "/DEV1234/DEMODS/3/RATE" := by
  decide

end ZhinstToolkit
